import Mathlib

/-
Verification of the Consul Connect router and Connect metrics observer
(flagger `pkg/router` Consul backend and `pkg/metrics/observers/connect.go`).

The Go code is embedded shallowly:
- Consul config entries become Lean structures; the Consul store reachable
  through `consulClient.ConfigEntries()` becomes an explicit `ConsulState`
  threaded through each operation, together with a counter of splitter /
  resolver `Set` calls so that "issues no write" is expressible.
- Transient failures of the external Consul and telemetry clients are
  supplied by a `ConsulEnv` oracle (the outcome of `Catalog().Datacenters()`,
  whether a splitter read or a config-entry write fails, and the boolean
  returned by the resolver write).
- `float32` / `float64` weights and query scalars are modelled as `ℚ`;
  Go's float-to-integer casts truncate toward zero (`truncQ`); the `int64`
  multiplication inside `time.Duration` arithmetic wraps (`wrap64`).
  Every weight the claims exercise is exactly representable in `float32`.
- `fmt.Errorf` messages are abstracted to their error kinds (`RouterError`,
  `ObserverError`); the spec's taxonomy names the kinds.
-/

/-- Truncation of a rational toward zero, the semantics of Go's
float-to-integer conversions (`int(split.Weight)`, `int64(value)`). -/
def truncQ (q : ℚ) : ℤ :=
  if 0 ≤ q then ⌊q⌋ else ⌈q⌉

/-- Wrap-around of a mathematical integer into the signed 64-bit range,
the semantics of Go `int64` arithmetic (`time.Duration` is an `int64`). -/
def wrap64 (n : ℤ) : ℤ :=
  (n + 2 ^ 63) % 2 ^ 64 - 2 ^ 63

/-- The constant `consulapi.ServiceSplitter`. -/
def ServiceSplitterKind : String := "service-splitter"

/-- The constant `consulapi.ServiceResolver`. -/
def ServiceResolverKind : String := "service-resolver"

/-- One entry of a splitter's `Splits` list (`consulapi.ServiceSplit`).
`Weight` is a `float32` in Go, modelled as `ℚ`. -/
structure ServiceSplit where
  Weight : ℚ
  Service : String
  ServiceSubset : String
  deriving DecidableEq

/-- A `consulapi.ServiceSplitterConfigEntry`: `Kind`, `Name` and the
ordered `Splits` list. -/
structure ServiceSplitterConfigEntry where
  Kind : String
  Name : String
  Splits : List ServiceSplit
  deriving DecidableEq

/-- A `consulapi.ServiceResolverSubset`: the subset's selection filter. -/
structure ServiceResolverSubset where
  Filter : String
  deriving DecidableEq

/-- A `consulapi.ServiceResolverFailover` entry. -/
structure ServiceResolverFailover where
  Service : String
  ServiceSubset : String
  Datacenters : List String
  deriving DecidableEq

/-- A `consulapi.ServiceResolverConfigEntry`. The Go `map[string]...`
fields `Subsets` and `Failover` are modelled as association lists;
`Failover` is `none` when the Go map is left nil. -/
structure ServiceResolverConfigEntry where
  Kind : String
  Name : String
  DefaultSubset : String
  Subsets : List (String × ServiceResolverSubset)
  Failover : Option (List (String × ServiceResolverFailover))
  deriving DecidableEq

/-- Modelled from the spec: the RolloutTarget naming triple
`{apexName, primaryName, canaryName}` that `canary.GetServiceNames()`
(external to the given sources) returns for one rollout target. -/
structure Canary where
  apexName : String
  primaryName : String
  canaryName : String
  deriving DecidableEq

/-- The triple returned by `canary.GetServiceNames()`. -/
def Canary.GetServiceNames (c : Canary) : String × String × String :=
  (c.apexName, c.primaryName, c.canaryName)

/-- Error kinds produced by the router, one per `fmt.Errorf` site in the
source (the spec's NotFound / WriteFailed / ConfigInvalid taxonomy). -/
inductive RouterError where
  /-- `GetRoutes`: the splitter read failed ("Service splitter ... not found"). -/
  | notFound
  /-- `GetRoutes`: the entry read back is not a splitter ("Bad service splitter"). -/
  | badEntry
  /-- `GetRoutes`: both weights resolve to zero ("does not contain routes for ..."). -/
  | configInvalid
  /-- `updateSplitter`: the splitter write failed ("Not able to set service splitter"). -/
  | writeFailed
  /-- `reconcileResolver`: the resolver write failed ("Failure during creation ..."). -/
  | resolverWriteFailed
  /-- `reconcileResolver`: the resolver write returned `false` ("Not able to create ..."). -/
  | resolverNotCreated
  deriving DecidableEq

/-- Outcomes of the external Consul client's calls during one operation:
the result of `Catalog().Datacenters()`, whether a splitter
`ConfigEntries().Get` fails (a missing entry also surfaces as an error),
whether each `ConfigEntries().Set` fails, and the boolean a successful
resolver `Set` returns. -/
structure ConsulEnv where
  datacentersResult : Except Unit (List String)
  splitterReadFails : Bool
  splitterSetFails : Bool
  resolverSetFails : Bool
  resolverSetResult : Bool

/-- The Consul config-entry store reachable through the client, keyed by
entry name within each kind, plus counters of issued `Set` calls. -/
structure ConsulState where
  splitters : List (String × ServiceSplitterConfigEntry)
  resolvers : List (String × ServiceResolverConfigEntry)
  splitterSetCalls : ℕ
  resolverSetCalls : ℕ
  deriving DecidableEq

/-- Replace the entry stored under `k`, or append it if absent
(Consul `ConfigEntries().Set` upsert semantics). -/
def setEntry {α : Type} : List (String × α) → String → α → List (String × α)
  | [], k, v => [(k, v)]
  | (k', v') :: rest, k, v =>
      if k' = k then (k, v) :: rest else (k', v') :: setEntry rest k v

/-- Look up the entry stored under `k`. -/
def lookupEntry {α : Type} : List (String × α) → String → Option α
  | [], _ => none
  | (k', v') :: rest, k => if k' = k then some v' else lookupEntry rest k

/-- Consul `ConfigEntries().Get(ServiceSplitter, name, nil)`: an error when
the oracle says the read fails transiently, and also when no splitter is
stored under `name` (Consul reports a missing entry as an error). -/
def getSplitterEntry (env : ConsulEnv) (st : ConsulState) (name : String) :
    Except Unit ServiceSplitterConfigEntry :=
  if env.splitterReadFails then .error ()
  else
    match lookupEntry st.splitters name with
    | some e => .ok e
    | none => .error ()

/-- The near-zero weight threshold `0.001` from `updateSplitter`, as the
exact rational 1/1000 (the `float32` nearest to `0.001` differs from it by
less than `5e-11`, which no integer-valued weight can distinguish). -/
def weightEpsilon : ℚ := Rat.divInt 1 1000

/-- The `Splits` list `updateSplitter` builds: a `primary` entry iff
`primaryWeight > 0.001`, then a `canary` entry iff
`secondaryWeight > 0.001`. -/
def buildSplits (apexName : String) (primaryWeight secondaryWeight : ℚ) :
    List ServiceSplit :=
  (if weightEpsilon < primaryWeight then
    [{ Weight := primaryWeight, Service := apexName, ServiceSubset := "primary" }]
  else []) ++
  (if weightEpsilon < secondaryWeight then
    [{ Weight := secondaryWeight, Service := apexName, ServiceSubset := "canary" }]
  else [])

/-- `ConsulConnectRouter.updateSplitter`: build the splits list, then `Set`
the splitter config entry for the apex name, replacing any stored one. -/
def updateSplitter (env : ConsulEnv) (st : ConsulState) (canary : Canary)
    (primaryWeight secondaryWeight : ℚ) : ConsulState × Option RouterError :=
  let apexName := canary.apexName
  let splitter : ServiceSplitterConfigEntry :=
    { Kind := ServiceSplitterKind, Name := apexName
      Splits := buildSplits apexName primaryWeight secondaryWeight }
  let st1 := { st with splitterSetCalls := st.splitterSetCalls + 1 }
  if env.splitterSetFails then (st1, some RouterError.writeFailed)
  else ({ st1 with splitters := setEntry st1.splitters apexName splitter }, none)

/-- The primary subset filter string built by `reconcileResolver`. -/
def primaryFilter (primaryName : String) : String :=
  "Service.ID matches \"" ++ primaryName ++ "-.+\""

/-- The canary subset filter string built by `reconcileResolver`. -/
def canaryFilter (primaryName : String) : String :=
  "Service.ID not matches \"" ++ primaryName ++ "-.+\""

/-- The resolver config entry literal built inside `reconcileResolver`
from the (already truncated) datacenter list `dcs`. -/
def buildResolver (dcs : List String) (canary : Canary) :
    ServiceResolverConfigEntry :=
  let base : ServiceResolverConfigEntry :=
    { Kind := ServiceResolverKind
      Name := canary.apexName
      DefaultSubset := "primary"
      Subsets :=
        [("primary", { Filter := primaryFilter canary.primaryName }),
         ("canary", { Filter := canaryFilter canary.primaryName })]
      Failover := none }
  if 0 < dcs.length then
    { base with
        Failover := some
          [("primary",
            { Service := canary.apexName, ServiceSubset := "primary"
              Datacenters := dcs }),
           ("canary",
            { Service := canary.apexName, ServiceSubset := "canary"
              Datacenters := dcs })] }
  else base

/-- `ConsulConnectRouter.reconcileResolver`: discover datacenters (a failed
discovery degrades to the empty list), drop the first (local) one, build
the resolver and `Set` it; a write failure or a `false` write result is an
error. -/
def reconcileResolver (env : ConsulEnv) (st : ConsulState) (canary : Canary) :
    ConsulState × Option RouterError :=
  let dcs0 : List String :=
    match env.datacentersResult with
    | .error _ => []
    | .ok l => l
  let dcs := if 1 ≤ dcs0.length then List.drop 1 dcs0 else dcs0
  let resolver := buildResolver dcs canary
  let st1 := { st with resolverSetCalls := st.resolverSetCalls + 1 }
  if env.resolverSetFails then (st1, some RouterError.resolverWriteFailed)
  else
    let st2 := { st1 with resolvers := setEntry st1.resolvers canary.apexName resolver }
    if env.resolverSetResult then (st2, none)
    else (st2, some RouterError.resolverNotCreated)

/-- `ConsulConnectRouter.reconcileSplitter`: read the splitter for the apex
name; on any read error (absence included) bootstrap it to
`{primary: 100, canary: 0}`; otherwise leave the store untouched. -/
def reconcileSplitter (env : ConsulEnv) (st : ConsulState) (canary : Canary) :
    ConsulState × Option RouterError :=
  match getSplitterEntry env st canary.apexName with
  | .error _ => updateSplitter env st canary 100 0
  | .ok _ => (st, none)

/-- `ConsulConnectRouter.Reconcile`: resolver reconciliation first, failing
fast, then splitter reconciliation. -/
def Reconcile (env : ConsulEnv) (st : ConsulState) (canary : Canary) :
    ConsulState × Option RouterError :=
  match reconcileResolver env st canary with
  | (st1, some e) => (st1, some e)
  | (st1, none) => reconcileSplitter env st1 canary

/-- The weight-extraction loop of `GetRoutes` over one `Splits` entry:
a `primary` entry overwrites the primary weight, a `canary` entry the
canary weight, both via Go's truncating `int(split.Weight)` cast. -/
def resolveStep (pc : ℤ × ℤ) (s : ServiceSplit) : ℤ × ℤ :=
  let pc1 := if s.ServiceSubset = "primary" then (truncQ s.Weight, pc.2) else pc
  if s.ServiceSubset = "canary" then (pc1.1, truncQ s.Weight) else pc1

/-- The weights `GetRoutes` extracts from a stored `Splits` list, starting
from the zero-valued named returns. -/
def resolveWeights (splits : List ServiceSplit) : ℤ × ℤ :=
  splits.foldl resolveStep (0, 0)

/-- `ConsulConnectRouter.GetRoutes`: read the splitter (a failed read
returns the NotFound-kind error with the zero named returns), extract both
weights defaulting a missing subset to 0, and flag the both-zero state as
the ConfigInvalid-kind error. `mirrored` is never assigned and stays
`false`. -/
def GetRoutes (env : ConsulEnv) (st : ConsulState) (canary : Canary) :
    ℤ × ℤ × Bool × Option RouterError :=
  match getSplitterEntry env st canary.apexName with
  | .error _ => (0, 0, false, some RouterError.notFound)
  | .ok entry =>
      let pw := (resolveWeights entry.Splits).1
      let cw := (resolveWeights entry.Splits).2
      (pw, cw, false,
        if pw = 0 ∧ cw = 0 then some RouterError.configInvalid else none)

/-- `ConsulConnectRouter.SetRoutes`: delegate to `updateSplitter` with the
integer weights cast to `float32`; the `mirrored` argument is unused. -/
def SetRoutes (env : ConsulEnv) (st : ConsulState) (canary : Canary)
    (primaryWeight canaryWeight : ℤ) (mirrored : Bool) :
    ConsulState × Option RouterError :=
  updateSplitter env st canary (primaryWeight : ℚ) (canaryWeight : ℚ)

/-- An environment whose Consul calls all succeed (`resolverSetResult` is
`true`), parametrized by the datacenter-discovery outcome. -/
def benignEnv (dcs : Except Unit (List String)) : ConsulEnv :=
  { datacentersResult := dcs
    splitterReadFails := false
    splitterSetFails := false
    resolverSetFails := false
    resolverSetResult := true }

/-- An environment identical to `benignEnv` except that the splitter read
fails transiently. -/
def readFailEnv (dcs : Except Unit (List String)) : ConsulEnv :=
  { benignEnv dcs with splitterReadFails := true }

/-- Modelled from the spec: the backend's filter operator
`matches "<name>-.+"` (an unanchored regular-expression match, external to
the given sources) accepts an instance identifier iff the identifier
contains the literal `<name>-` followed by at least one character. -/
def dotPlusOccurs (p : List Char) : List Char → Bool
  | [] => false
  | c :: rest =>
      (List.isPrefixOf p (c :: rest) && Nat.blt p.length (c :: rest).length) ||
        dotPlusOccurs p rest

/-- Whether the generated pattern `<primaryName>-.+` matches an instance
identifier. -/
def matchesPat (primaryName id : String) : Bool :=
  dotPlusOccurs (primaryName.data ++ ['-']) id.data

/-- Acceptance of the primary subset's filter
`Service.ID matches "<primaryName>-.+"`. -/
def primaryFilterAccepts (primaryName id : String) : Bool :=
  matchesPat primaryName id

/-- Acceptance of the canary subset's filter
`Service.ID not matches "<primaryName>-.+"`: the logical negation of the
primary filter. -/
def canaryFilterAccepts (primaryName id : String) : Bool :=
  !(matchesPat primaryName id)

/-- Error kinds produced by the Connect observer (the spec's TemplateError
and QueryExecutionFailed taxonomy). -/
inductive ObserverError where
  /-- `RenderQuery` failed ("rendering query failed"). -/
  | templateError
  /-- `RunQuery` failed ("running query failed"). -/
  | queryFailed
  deriving DecidableEq

/-- The constant `time.Millisecond` in nanoseconds. -/
def timeMillisecond : ℤ := 1000000

/-- `ConnectObserver.GetRequestDuration`: given the outcome of rendering
the request-duration query and the telemetry client's `RunQuery`, convert
the raw scalar via `time.Duration(int64(value)) * time.Millisecond`
(truncation toward zero, then wrapping `int64` multiplication). The
result is a `time.Duration` in nanoseconds. -/
def GetRequestDuration (render : Except Unit String)
    (runQuery : String → Except Unit ℚ) : Except ObserverError ℤ :=
  match render with
  | .error _ => .error ObserverError.templateError
  | .ok query =>
      match runQuery query with
      | .error _ => .error ObserverError.queryFailed
      | .ok value => .ok (wrap64 (wrap64 (truncQ value) * timeMillisecond))

/-- A concrete rollout target used by concrete instances. -/
def sampleTarget : Canary :=
  { apexName := "podinfo", primaryName := "podinfo-primary"
    canaryName := "podinfo-canary" }

/-- An empty Consul store. -/
def emptyState : ConsulState :=
  { splitters := [], resolvers := [], splitterSetCalls := 0, resolverSetCalls := 0 }

/-- A Consul store holding a corrupt splitter for `sampleTarget`: neither a
`primary` nor a `canary` entry appears in its splits. -/
def corruptState : ConsulState :=
  { splitters :=
      [("podinfo",
        { Kind := ServiceSplitterKind, Name := "podinfo"
          Splits := [{ Weight := 50, Service := "podinfo", ServiceSubset := "other" }] })]
    resolvers := [], splitterSetCalls := 0, resolverSetCalls := 0 }

/-- A Consul store holding an established 60/40 split for `sampleTarget`. -/
def establishedState : ConsulState :=
  { splitters :=
      [("podinfo",
        { Kind := ServiceSplitterKind, Name := "podinfo"
          Splits :=
            [{ Weight := 60, Service := "podinfo", ServiceSubset := "primary" },
             { Weight := 40, Service := "podinfo", ServiceSubset := "canary" }] })]
    resolvers := [], splitterSetCalls := 0, resolverSetCalls := 0 }

/-- A telemetry client constantly answering the scalar 250. -/
def constQuery250 : String → Except Unit ℚ := fun _ => .ok 250

/-- A telemetry client constantly answering the scalar 250.9. -/
def constQuery2509 : String → Except Unit ℚ := fun _ => .ok (Rat.divInt 2509 10)

theorem lookupEntry_setEntry_self {α : Type} (l : List (String × α)) (k : String) (v : α) :
    lookupEntry (setEntry l k v) k = some v := by
  induction l with
  | nil => simp [setEntry, lookupEntry]
  | cons hd rest ih =>
    obtain ⟨k0, v0⟩ := hd
    by_cases hk : k0 = k
    · simp [setEntry, lookupEntry, hk]
    · simp [setEntry, lookupEntry, hk, ih]

theorem truncQ_intCast (n : ℤ) : truncQ (n : ℚ) = n := by
  unfold truncQ
  split
  · exact Int.floor_intCast n
  · exact Int.ceil_intCast n

theorem weightEpsilon_lt_intCast (n : ℤ) : weightEpsilon < (n : ℚ) ↔ 0 < n := by
  unfold weightEpsilon
  rw [Rat.divInt_eq_div]
  constructor
  · intro h
    by_contra hn
    push_neg at hn
    have hcast : (n : ℚ) ≤ 0 := by exact_mod_cast hn
    have : (1 : ℚ) / 1000 ≤ 0 := le_trans h.le hcast
    norm_num at this
  · intro h
    have h1 : (1 : ℚ) ≤ (n : ℚ) := by exact_mod_cast h
    calc (1 : ℚ) / 1000 < 1 := by norm_num
    _ ≤ (n : ℚ) := h1

theorem resolveWeights_buildSplits (a : String) (p c : ℚ) :
    resolveWeights (buildSplits a p c) =
      ((if weightEpsilon < p then truncQ p else 0),
       (if weightEpsilon < c then truncQ c else 0)) := by
  unfold buildSplits resolveWeights
  by_cases hp : weightEpsilon < p <;> by_cases hc : weightEpsilon < c <;>
    simp [hp, hc, resolveStep]

theorem foldl_resolveStep_const (l : List ServiceSplit) (acc : ℤ × ℤ)
    (h : ∀ s ∈ l, s.ServiceSubset ≠ "primary" ∧ s.ServiceSubset ≠ "canary") :
    l.foldl resolveStep acc = acc := by
  induction l generalizing acc with
  | nil => rfl
  | cons s rest ih =>
    have hs := h s (List.mem_cons_self s rest)
    have hstep : resolveStep acc s = acc := by
      unfold resolveStep
      simp [hs.1, hs.2]
    rw [List.foldl_cons, hstep]
    exact ih acc fun x hx => h x (List.mem_cons_of_mem s hx)

theorem setRoutes_benign (d : Except Unit (List String)) (st : ConsulState)
    (t : Canary) (p c : ℤ) (m : Bool) :
    SetRoutes (benignEnv d) st t p c m =
      ({ st with
          splitters := setEntry st.splitters t.apexName
            { Kind := ServiceSplitterKind, Name := t.apexName
              Splits := buildSplits t.apexName (p : ℚ) (c : ℚ) }
          splitterSetCalls := st.splitterSetCalls + 1 }, none) := rfl

theorem getRoutes_of_lookup (env : ConsulEnv) (st : ConsulState) (t : Canary)
    (e : ServiceSplitterConfigEntry)
    (henv : env.splitterReadFails = false)
    (h : lookupEntry st.splitters t.apexName = some e) :
    GetRoutes env st t =
      ((resolveWeights e.Splits).1, (resolveWeights e.Splits).2, false,
        if (resolveWeights e.Splits).1 = 0 ∧ (resolveWeights e.Splits).2 = 0
        then some RouterError.configInvalid else none) := by
  simp [GetRoutes, getSplitterEntry, henv, h]

theorem dcs_if_drop (l : List String) :
    (if 1 ≤ l.length then List.drop 1 l else l) = List.drop 1 l := by
  cases l <;> simp

theorem reconcileResolver_benign_ok (l : List String) (st : ConsulState) (t : Canary) :
    reconcileResolver (benignEnv (.ok l)) st t =
      ({ st with
          resolvers := setEntry st.resolvers t.apexName (buildResolver (List.drop 1 l) t)
          resolverSetCalls := st.resolverSetCalls + 1 }, none) := by
  cases l with
  | nil => rfl
  | cons a rest =>
    simp [reconcileResolver, benignEnv, Nat.succ_le_succ (Nat.zero_le rest.length)]

theorem reconcileResolver_benign_error (st : ConsulState) (t : Canary) :
    reconcileResolver (benignEnv (.error ())) st t =
      ({ st with
          resolvers := setEntry st.resolvers t.apexName (buildResolver [] t)
          resolverSetCalls := st.resolverSetCalls + 1 }, none) := rfl

theorem wrap64_eq_self (n : ℤ) (h1 : -9223372036854775808 ≤ n)
    (h2 : n < 9223372036854775808) : wrap64 n = n := by
  unfold wrap64
  have p63 : (2 : ℤ) ^ 63 = 9223372036854775808 := by norm_num
  have p64 : (2 : ℤ) ^ 64 = 18446744073709551616 := by norm_num
  rw [p63, p64]
  rw [Int.emod_eq_of_lt (by omega) (by omega)]
  omega

/-- C1: round-trip of the router write/read pair. For every target and
store, under a writable backend, `SetRoutes(target, 90, 10, false)`
followed by `GetRoutes(target)` returns `(90, 10, false)` with no error,
and `SetRoutes(target, 100, 0, false)` followed by `GetRoutes(target)`
returns `(100, 0, false)` with no error, even though the stored split then
holds only the `primary` entry (the zero-weight canary entry is omitted
and `GetRoutes` defaults the missing subset to weight 0). -/
theorem flagger_c1_roundtrip (d : Except Unit (List String)) (st : ConsulState)
    (t : Canary) :
    ((SetRoutes (benignEnv d) st t 90 10 false).2 = none ∧
      GetRoutes (benignEnv d) (SetRoutes (benignEnv d) st t 90 10 false).1 t =
        (90, 10, false, none)) ∧
    ((SetRoutes (benignEnv d) st t 100 0 false).2 = none ∧
      GetRoutes (benignEnv d) (SetRoutes (benignEnv d) st t 100 0 false).1 t =
        (100, 0, false, none) ∧
      (lookupEntry (SetRoutes (benignEnv d) st t 100 0 false).1.splitters
          t.apexName).map (fun e => e.Splits.map ServiceSplit.ServiceSubset) =
        some ["primary"]) := by
  have e90 : weightEpsilon < (90 : ℚ) := by decide
  have e10 : weightEpsilon < (10 : ℚ) := by decide
  have e100 : weightEpsilon < (100 : ℚ) := by decide
  have e0 : ¬ weightEpsilon < (0 : ℚ) := by decide
  have t90 : truncQ (90 : ℚ) = 90 := by decide
  have t10 : truncQ (10 : ℚ) = 10 := by decide
  have t100 : truncQ (100 : ℚ) = 100 := by decide
  have t0 : truncQ (0 : ℚ) = 0 := by decide
  refine ⟨⟨?_, ?_⟩, ?_, ?_, ?_⟩
  · rw [setRoutes_benign]
  · rw [setRoutes_benign,
      getRoutes_of_lookup _ _ _ _ rfl (lookupEntry_setEntry_self _ _ _)]
    simp [resolveWeights_buildSplits, e90, e10, t90, t10]
  · rw [setRoutes_benign]
  · rw [setRoutes_benign,
      getRoutes_of_lookup _ _ _ _ rfl (lookupEntry_setEntry_self _ _ _)]
    simp [resolveWeights_buildSplits, e100, e0, t100, t0]
  · rw [setRoutes_benign]
    dsimp only
    rw [lookupEntry_setEntry_self]
    simp [buildSplits, e100, e0]

/-- C2 counterexample: `SetRoutes(0, 0, false)` is accepted (it returns no
error), stores a splitter whose `Splits` list is empty — so both subset
weights resolve to 0 — and the subsequent `GetRoutes` rejects exactly that
state with the ConfigInvalid-kind error. The both-zero state is therefore
reachable through `SetRoutes`. -/
theorem flagger_c2_counterexample :
    (SetRoutes (benignEnv (.ok [])) emptyState sampleTarget 0 0 false).2 = none ∧
    lookupEntry (SetRoutes (benignEnv (.ok []))
        emptyState sampleTarget 0 0 false).1.splitters "podinfo" =
      some { Kind := ServiceSplitterKind, Name := "podinfo", Splits := [] } ∧
    GetRoutes (benignEnv (.ok []))
        (SetRoutes (benignEnv (.ok [])) emptyState sampleTarget 0 0 false).1
        sampleTarget =
      (0, 0, false, some RouterError.configInvalid) := by
  decide

/-- C2 amended: for every weight pair in which at least one weight is
strictly positive, `SetRoutes` succeeds and the stored split never has
both the primary and canary subset weights resolving to zero; with both
weights nonpositive, `SetRoutes` stores an empty split that `GetRoutes`
rejects (see the counterexample). -/
theorem flagger_c2_amended_nonzero (d : Except Unit (List String))
    (st : ConsulState) (t : Canary) (p c : ℤ) (m : Bool)
    (h : 0 < p ∨ 0 < c) :
    (SetRoutes (benignEnv d) st t p c m).2 = none ∧
    lookupEntry (SetRoutes (benignEnv d) st t p c m).1.splitters t.apexName =
      some { Kind := ServiceSplitterKind, Name := t.apexName
             Splits := buildSplits t.apexName (p : ℚ) (c : ℚ) } ∧
    resolveWeights (buildSplits t.apexName (p : ℚ) (c : ℚ)) ≠ (0, 0) := by
  rw [setRoutes_benign]
  refine ⟨rfl, lookupEntry_setEntry_self _ _ _, ?_⟩
  rw [resolveWeights_buildSplits]
  rcases h with hp | hc
  · rw [if_pos ((weightEpsilon_lt_intCast p).mpr hp), truncQ_intCast p]
    intro heq
    rw [Prod.mk.injEq] at heq
    obtain ⟨h1, h2⟩ := heq
    omega
  · rw [if_pos ((weightEpsilon_lt_intCast c).mpr hc), truncQ_intCast c]
    intro heq
    rw [Prod.mk.injEq] at heq
    obtain ⟨h1, h2⟩ := heq
    omega

/-- C2 amended, witness: at the concrete weights (90, 10) on the empty
store the amended statement holds. -/
theorem flagger_c2_witness :
    ((0 : ℤ) < 90 ∨ (0 : ℤ) < 10) ∧
    ((SetRoutes (benignEnv (.ok [])) emptyState sampleTarget 90 10 false).2 = none ∧
      lookupEntry (SetRoutes (benignEnv (.ok []))
          emptyState sampleTarget 90 10 false).1.splitters sampleTarget.apexName =
        some { Kind := ServiceSplitterKind, Name := sampleTarget.apexName
               Splits := buildSplits sampleTarget.apexName ((90 : ℤ) : ℚ) ((10 : ℤ) : ℚ) } ∧
      resolveWeights (buildSplits sampleTarget.apexName ((90 : ℤ) : ℚ) ((10 : ℤ) : ℚ)) ≠
        (0, 0)) :=
  ⟨Or.inl (by decide),
    flagger_c2_amended_nonzero (.ok []) emptyState sampleTarget 90 10 false
      (Or.inl (by decide))⟩

/-- C3: corruption detection on read. If the stored split for the target's
apex name contains no entry for the `primary` subset and none for the
`canary` subset, both weights resolve to 0 and `GetRoutes` returns the
ConfigInvalid-kind error together with the zero weights, not a successful
result. -/
theorem flagger_c3_corruption_read (d : Except Unit (List String))
    (st : ConsulState) (t : Canary) (e : ServiceSplitterConfigEntry)
    (h : lookupEntry st.splitters t.apexName = some e)
    (hno : ∀ s ∈ e.Splits, s.ServiceSubset ≠ "primary" ∧ s.ServiceSubset ≠ "canary") :
    GetRoutes (benignEnv d) st t = (0, 0, false, some RouterError.configInvalid) := by
  rw [getRoutes_of_lookup _ _ _ _ rfl h]
  have hz : resolveWeights e.Splits = (0, 0) := foldl_resolveStep_const _ _ hno
  rw [hz]
  simp

/-- C3 witness: a stored split holding a single entry for an unrelated
subset name triggers the ConfigInvalid-kind error on read. -/
theorem flagger_c3_witness :
    GetRoutes (benignEnv (.ok [])) corruptState sampleTarget =
      (0, 0, false, some RouterError.configInvalid) :=
  flagger_c3_corruption_read (.ok []) corruptState sampleTarget
    { Kind := ServiceSplitterKind, Name := "podinfo"
      Splits := [{ Weight := 50, Service := "podinfo", ServiceSubset := "other" }] }
    rfl (by decide)

/-- C8: duration unit conversion. Whenever rendering succeeds and the
telemetry query executes successfully with the raw scalar 250,
`GetRequestDuration` returns exactly 250 milliseconds (the observer
multiplies the millisecond-valued raw result into duration units). -/
theorem flagger_c8_duration_units (q : String) (f : String → Except Unit ℚ)
    (h : f q = .ok 250) :
    GetRequestDuration (.ok q) f = .ok (250 * timeMillisecond) := by
  simp only [GetRequestDuration, h]
  rfl

/-- C8 witness: a client constantly answering 250 yields the
250-millisecond duration. -/
theorem flagger_c8_witness :
    constQuery250 "histogram" = .ok 250 ∧
    GetRequestDuration (.ok "histogram") constQuery250 = .ok (250 * timeMillisecond) :=
  ⟨rfl, flagger_c8_duration_units "histogram" constQuery250 rfl⟩

/-- C9: the mirror flag is ignored and never an error. For every
environment, store, target and weight pair, `SetRoutes` with any two
values of the `mirrored` argument produces the identical resulting backend
state and the identical success/failure result. -/
theorem flagger_c9_mirror_ignored (env : ConsulEnv) (st : ConsulState)
    (t : Canary) (p c : ℤ) (m1 m2 : Bool) :
    SetRoutes env st t p c m1 = SetRoutes env st t p c m2 := rfl

/-- C10: fractional-duration truncation. For every nonnegative raw scalar
below 2^40 returned by a successful query, `GetRequestDuration` discards
the fractional part (truncation toward zero, which on nonnegative values
is the floor) before converting to milliseconds; in particular 250.9
yields a 250-millisecond duration, not a rounded 251 (see the witness). -/
theorem flagger_c10_truncation (q : String) (f : String → Except Unit ℚ) (v : ℚ)
    (h : f q = .ok v) (h0 : 0 ≤ v) (hb : v < 1099511627776) :
    GetRequestDuration (.ok q) f = .ok (⌊v⌋ * timeMillisecond) := by
  simp only [GetRequestDuration, h]
  have ht : truncQ v = ⌊v⌋ := by
    unfold truncQ
    exact if_pos h0
  have hf0 : (0 : ℤ) ≤ ⌊v⌋ := Int.floor_nonneg.mpr h0
  have hfb : ⌊v⌋ < (1099511627776 : ℤ) := Int.floor_lt.mpr (by exact_mod_cast hb)
  have hw1 : wrap64 ⌊v⌋ = ⌊v⌋ := wrap64_eq_self _ (by omega) (by omega)
  have hw2 : wrap64 (⌊v⌋ * timeMillisecond) = ⌊v⌋ * timeMillisecond := by
    unfold timeMillisecond
    exact wrap64_eq_self _ (by omega) (by omega)
  rw [ht, hw1, hw2]

/-- C10 witness: the raw scalar 250.9 yields exactly the 250-millisecond
duration. -/
theorem flagger_c10_witness :
    constQuery2509 "histogram" = .ok (Rat.divInt 2509 10) ∧
    (0 : ℚ) ≤ Rat.divInt 2509 10 ∧
    Rat.divInt 2509 10 < 1099511627776 ∧
    GetRequestDuration (.ok "histogram") constQuery2509 = .ok (250 * timeMillisecond) := by
  refine ⟨rfl, by decide, by decide, ?_⟩
  rw [flagger_c10_truncation "histogram" constQuery2509 (Rat.divInt 2509 10) rfl
    (by decide) (by decide)]
  rfl

theorem reconcileSplitter_benign_present (d : Except Unit (List String))
    (st : ConsulState) (t : Canary) (e : ServiceSplitterConfigEntry)
    (he : lookupEntry st.splitters t.apexName = some e) :
    reconcileSplitter (benignEnv d) st t = (st, none) := by
  simp [reconcileSplitter, getSplitterEntry, benignEnv, he]

theorem bootstrapSplits_eq (a : String) :
    buildSplits a 100 0 =
      [{ Weight := 100, Service := a, ServiceSubset := "primary" }] := by
  have h100 : weightEpsilon < (100 : ℚ) := by decide
  have h0 : ¬ weightEpsilon < (0 : ℚ) := by decide
  simp [buildSplits, h100, h0]

theorem reconcileSplitter_benign_absent (d : Except Unit (List String))
    (st : ConsulState) (t : Canary)
    (he : lookupEntry st.splitters t.apexName = none) :
    reconcileSplitter (benignEnv d) st t =
      ({ st with
          splitters := setEntry st.splitters t.apexName
            { Kind := ServiceSplitterKind, Name := t.apexName
              Splits := buildSplits t.apexName 100 0 }
          splitterSetCalls := st.splitterSetCalls + 1 }, none) := by
  simp [reconcileSplitter, getSplitterEntry, benignEnv, he, updateSplitter]

theorem buildResolver_Subsets (dcs : List String) (t : Canary) :
    (buildResolver dcs t).Subsets =
      [("primary", { Filter := primaryFilter t.primaryName }),
       ("canary", { Filter := canaryFilter t.primaryName })] := by
  unfold buildResolver
  split <;> rfl

/-- C4: reconcile idempotence. Under a writable backend, when the splitter
for the target's apex name is already stored (and the read does not fail),
`Reconcile` succeeds, issues no splitter write and leaves the stored
splitters — in particular the split's weights — unchanged; when the read
finds the splitter absent, `Reconcile` issues exactly one splitter write
initializing the split to `{primary: 100, canary: 0}` (stored as the lone
primary entry). -/
theorem flagger_c4_reconcile_idempotent (d : Except Unit (List String))
    (st : ConsulState) (t : Canary) :
    (∀ e, lookupEntry st.splitters t.apexName = some e →
      (Reconcile (benignEnv d) st t).2 = none ∧
      (Reconcile (benignEnv d) st t).1.splitters = st.splitters ∧
      (Reconcile (benignEnv d) st t).1.splitterSetCalls = st.splitterSetCalls) ∧
    (lookupEntry st.splitters t.apexName = none →
      (Reconcile (benignEnv d) st t).2 = none ∧
      (Reconcile (benignEnv d) st t).1.splitterSetCalls = st.splitterSetCalls + 1 ∧
      lookupEntry (Reconcile (benignEnv d) st t).1.splitters t.apexName =
        some { Kind := ServiceSplitterKind, Name := t.apexName
               Splits := [{ Weight := 100, Service := t.apexName
                            ServiceSubset := "primary" }] }) := by
  constructor
  · intro e he
    cases d with
    | error u =>
      cases u
      simp only [Reconcile, reconcileResolver_benign_error]
      simp [reconcileSplitter, getSplitterEntry, benignEnv, he]
    | ok l =>
      simp only [Reconcile, reconcileResolver_benign_ok]
      simp [reconcileSplitter, getSplitterEntry, benignEnv, he]
  · intro he
    cases d with
    | error u =>
      cases u
      simp only [Reconcile, reconcileResolver_benign_error]
      simp [reconcileSplitter, getSplitterEntry, benignEnv, he, updateSplitter,
        lookupEntry_setEntry_self, bootstrapSplits_eq]
    | ok l =>
      simp only [Reconcile, reconcileResolver_benign_ok]
      simp [reconcileSplitter, getSplitterEntry, benignEnv, he, updateSplitter,
        lookupEntry_setEntry_self, bootstrapSplits_eq]

/-- C4 witness: on a store already holding a 60/40 split, `Reconcile`
succeeds, leaves the splitters unchanged and issues no splitter write. -/
theorem flagger_c4_witness :
    (Reconcile (benignEnv (.ok [])) establishedState sampleTarget).2 = none ∧
    (Reconcile (benignEnv (.ok [])) establishedState sampleTarget).1.splitters =
      establishedState.splitters ∧
    (Reconcile (benignEnv (.ok [])) establishedState sampleTarget).1.splitterSetCalls =
      establishedState.splitterSetCalls :=
  (flagger_c4_reconcile_idempotent (.ok []) establishedState sampleTarget).1
    { Kind := ServiceSplitterKind, Name := "podinfo"
      Splits :=
        [{ Weight := 60, Service := "podinfo", ServiceSubset := "primary" },
         { Weight := 40, Service := "podinfo", ServiceSubset := "canary" }] }
    rfl

/-- C5: failover population. With discovery returning the location list
`l`, reconciliation succeeds and stores the resolver built from locations
2..n (the first location is dropped as local); that resolver carries a
failover mapping with identical `primary` and `canary` entries pointing at
the apex name in those locations exactly when at least two locations were
discovered, and no failover entry otherwise; a failed discovery likewise
succeeds (it does not abort reconciliation) and stores the resolver with
no failover entry. -/
theorem flagger_c5_failover_population (st : ConsulState) (t : Canary)
    (l : List String) :
    ((reconcileResolver (benignEnv (.ok l)) st t).2 = none ∧
      lookupEntry (reconcileResolver (benignEnv (.ok l)) st t).1.resolvers
          t.apexName =
        some (buildResolver (List.drop 1 l) t)) ∧
    (buildResolver (List.drop 1 l) t).Failover =
      (if 2 ≤ l.length then
        some [("primary", { Service := t.apexName, ServiceSubset := "primary"
                            Datacenters := List.drop 1 l }),
              ("canary", { Service := t.apexName, ServiceSubset := "canary"
                           Datacenters := List.drop 1 l })]
      else none) ∧
    ((reconcileResolver (benignEnv (.error ())) st t).2 = none ∧
      lookupEntry (reconcileResolver (benignEnv (.error ())) st t).1.resolvers
          t.apexName =
        some (buildResolver [] t) ∧
      (buildResolver ([] : List String) t).Failover = none) := by
  refine ⟨⟨?_, ?_⟩, ?_, ?_, ?_, ?_⟩
  · rw [reconcileResolver_benign_ok]
  · rw [reconcileResolver_benign_ok]
    dsimp only
    exact lookupEntry_setEntry_self _ _ _
  · by_cases h2 : 2 ≤ l.length
    · have h1 : 1 < l.length := by omega
      rw [if_pos h2]
      simp [buildResolver, h1]
    · have h1 : ¬ 1 < l.length := by omega
      rw [if_neg h2]
      simp [buildResolver, h1]
  · rw [reconcileResolver_benign_error]
  · rw [reconcileResolver_benign_error]
    dsimp only
    exact lookupEntry_setEntry_self _ _ _
  · rfl

/-- C6: bootstrap on any read error. `reconcileSplitter` treats every
failure of the split read as absence: if the read fails transiently while
a split is stored for the apex name — whatever its weights — the router
issues a splitter write that overwrites it with the bootstrap split
`{primary: 100, canary: 0}` and reports success. -/
theorem flagger_c6_bootstrap_on_read_error (d : Except Unit (List String))
    (st : ConsulState) (t : Canary) (e : ServiceSplitterConfigEntry)
    (h : lookupEntry st.splitters t.apexName = some e) :
    (reconcileSplitter (readFailEnv d) st t).2 = none ∧
    (reconcileSplitter (readFailEnv d) st t).1.splitterSetCalls =
      st.splitterSetCalls + 1 ∧
    lookupEntry (reconcileSplitter (readFailEnv d) st t).1.splitters t.apexName =
      some { Kind := ServiceSplitterKind, Name := t.apexName
             Splits := [{ Weight := 100, Service := t.apexName
                          ServiceSubset := "primary" }] } := by
  have hstep : reconcileSplitter (readFailEnv d) st t =
      ({ st with
          splitters := setEntry st.splitters t.apexName
            { Kind := ServiceSplitterKind, Name := t.apexName
              Splits := buildSplits t.apexName 100 0 }
          splitterSetCalls := st.splitterSetCalls + 1 }, none) := by
    simp [reconcileSplitter, getSplitterEntry, readFailEnv, benignEnv, updateSplitter]
  rw [hstep]
  refine ⟨rfl, rfl, ?_⟩
  dsimp only
  rw [lookupEntry_setEntry_self, bootstrapSplits_eq]

/-- C6 witness: a transient read failure over an established 60/40 split
makes `reconcileSplitter` overwrite it with the bootstrap split. -/
theorem flagger_c6_witness :
    (reconcileSplitter (readFailEnv (.ok [])) establishedState sampleTarget).2 = none ∧
    (reconcileSplitter (readFailEnv (.ok []))
        establishedState sampleTarget).1.splitterSetCalls =
      establishedState.splitterSetCalls + 1 ∧
    lookupEntry (reconcileSplitter (readFailEnv (.ok []))
        establishedState sampleTarget).1.splitters sampleTarget.apexName =
      some { Kind := ServiceSplitterKind, Name := sampleTarget.apexName
             Splits := [{ Weight := 100, Service := sampleTarget.apexName
                          ServiceSubset := "primary" }] } :=
  flagger_c6_bootstrap_on_read_error (.ok []) establishedState sampleTarget
    { Kind := ServiceSplitterKind, Name := "podinfo"
      Splits :=
        [{ Weight := 60, Service := "podinfo", ServiceSubset := "primary" },
         { Weight := 40, Service := "podinfo", ServiceSubset := "canary" }] }
    rfl

/-- C7: subset filter correctness. The resolver stored by reconciliation
has exactly two subsets, whose filters are the primary-prefix pattern and
its logical negation; concretely, for primary identifier "app-v1" the
primary filter accepts the instance identifier "app-v1-7f3a", and the
canary filter accepts "app-v2-0001" but not "app-v1-7f3a". -/
theorem flagger_c7_subset_filters (d : Except Unit (List String))
    (st : ConsulState) (t : Canary) :
    (lookupEntry (reconcileResolver (benignEnv d) st t).1.resolvers
        t.apexName).map ServiceResolverConfigEntry.Subsets =
      some [("primary", { Filter := primaryFilter t.primaryName }),
            ("canary", { Filter := canaryFilter t.primaryName })] ∧
    (∀ n id, canaryFilterAccepts n id = !(primaryFilterAccepts n id)) ∧
    primaryFilterAccepts "app-v1" "app-v1-7f3a" = true ∧
    canaryFilterAccepts "app-v1" "app-v2-0001" = true ∧
    canaryFilterAccepts "app-v1" "app-v1-7f3a" = false := by
  refine ⟨?_, fun n id => rfl, by decide, by decide, by decide⟩
  cases d with
  | error u =>
    cases u
    rw [reconcileResolver_benign_error]
    dsimp only
    rw [lookupEntry_setEntry_self]
    simp [buildResolver_Subsets]
  | ok l =>
    rw [reconcileResolver_benign_ok]
    dsimp only
    rw [lookupEntry_setEntry_self]
    simp [buildResolver_Subsets]
